import Mathlib

/-!
Verification of the multi-echelon inventory simulation engine
(`simpy_2.0/simulation/simBackorder.py` and `simpy_3.0/simulation/simLostSales.py`).

Conventions of the embedding:
* Python floats are modelled as rationals (`ℚ`); all quantities the claims
  reason about are produced by `+`, `-`, `min`, `max` and division, which the
  code applies to exact decimal inputs, so the rational model is faithful up
  to floating-point rounding noise (which the code itself absorbs with its
  5% reorder margin).
* The literal `1.05` is `21/20` and `1.0e-5` is `1/100000`.
* Each facility's four SimPy processes are modelled as atomic operations on a
  facility state; a step relation over these operations over-approximates the
  interleavings the cooperative single-threaded scheduler can produce
  (spec section 5), so an invariant over the relation holds in every run, and
  every concrete counterexample trace below follows the actual resumption
  order of the scheduler (processes resume in activation order at each tick).
* A facility's placed-but-undelivered replenishment orders are tracked in a
  ghost `pipeline` list: `check_inventory` appends the quantity it enqueues on
  the upstream facility's order queue, and a delivery removes the delivered
  entry while adding its quantity to on-hand inventory (`ship`).
-/

namespace SimBackorder

/-- Per-facility state of the backorder variant (`simBackorder.stocking_facility`),
restricted to the fields the claims are about, plus the ghost `pipeline` of
placed-but-undelivered replenishment quantities. -/
structure BNode where
  on_hand_inventory : ℚ
  inventory_position : ℚ
  ROP : ℚ
  baseStock : ℚ
  totalDemand : ℚ
  totalBackOrder : ℚ
  totalLateSales : ℚ
  pipeline : List ℚ
  deriving DecidableEq

/-- One period of `customer_demand.serve_customer` (simBackorder.py lines 165-176)
applied to a bootstrap-sampled demand value. -/
def serve_customer (s : BNode) (demand : ℚ) : BNode :=
  let shipment := min (demand + s.totalBackOrder) s.on_hand_inventory
  let backorder := demand - shipment
  { s with
    totalDemand := s.totalDemand + demand
    on_hand_inventory := s.on_hand_inventory - shipment
    inventory_position := s.inventory_position - shipment
    totalBackOrder := s.totalBackOrder + backorder
    totalLateSales := s.totalLateSales + max 0 backorder }

/-- The order-placing branch of `place_replenishment_order.check_inventory`
(simBackorder.py lines 107-111): an order of `baseStock - on_hand_inventory`
is appended to the upstream order queue (recorded in the ghost pipeline) and
the facility's inventory position is increased by that quantity. -/
def check_inventory (s : BNode) : BNode :=
  { s with
    inventory_position := s.inventory_position + (s.baseStock - s.on_hand_inventory)
    pipeline := s.pipeline ++ [s.baseStock - s.on_hand_inventory] }

/-- Atomic operations of the backorder facility state machine, as they mutate
one non-source facility's state.  `check` fires only under the reorder
trigger of line 107.  `fulfillShip` and `fulfillRemainder` are the two
decrement phases of `fulfill_replenishment_order.prepare_replenishment`
(lines 128-140) acting on this facility as the upstream of some downstream
order of quantity `q` (the remainder decrement fires only once on-hand covers
it, mirroring the `waituntil` on line 137).  `deliver` is
`deliver_replenishment.ship` (line 156) adding a previously placed order's
quantity to on-hand inventory.  With `posOnly = true` the relation is
restricted to runs whose sampled demands and delivered quantities are
nonnegative. -/
inductive BStep (posOnly : Bool) : BNode → BNode → Prop
  | check (s : BNode) (htrig : s.inventory_position ≤ 21/20 * s.ROP) :
      BStep posOnly s (check_inventory s)
  | serve (s : BNode) (d : ℚ) (hd : posOnly = true → 0 ≤ d) :
      BStep posOnly s (serve_customer s d)
  | fulfillShip (s : BNode) (q : ℚ) :
      BStep posOnly s
        { s with
          on_hand_inventory := s.on_hand_inventory - min q s.on_hand_inventory
          inventory_position := s.inventory_position - min q s.on_hand_inventory }
  | fulfillRemainder (s : BNode) (r : ℚ) (hcover : r ≤ s.on_hand_inventory) :
      BStep posOnly s
        { s with
          on_hand_inventory := s.on_hand_inventory - r
          inventory_position := s.inventory_position - r }
  | deliver (s : BNode) (q : ℚ) (l₁ l₂ : List ℚ) (hpipe : s.pipeline = l₁ ++ q :: l₂)
      (hq : posOnly = true → 0 ≤ q) :
      BStep posOnly s
        { s with
          on_hand_inventory := s.on_hand_inventory + q
          pipeline := l₁ ++ l₂ }

/-- Reachability under arbitrary interleavings of the backorder operations. -/
def BReach : BNode → BNode → Prop := Relation.ReflTransGen (BStep false)

/-- Reachability restricted to nonnegative sampled demands and delivered
quantities. -/
def BReachPos : BNode → BNode → Prop := Relation.ReflTransGen (BStep true)

/-- Initial facility state of `stocking_facility.__init__`: on-hand and
inventory position both equal `initial_inv`, counters zero, no open orders. -/
def initBNode (initial_inv ROP base_stock : ℚ) : BNode :=
  { on_hand_inventory := initial_inv
    inventory_position := initial_inv
    ROP := ROP
    baseStock := base_stock
    totalDemand := 0
    totalBackOrder := 0
    totalLateSales := 0
    pipeline := [] }

/-- Reachable state refuting the spec's identity for C1: one demand period at
a facility holding 3 units facing demand 10 (series value 10). -/
def c1Bad : BNode :=
  { on_hand_inventory := 0
    inventory_position := 0
    ROP := 20
    baseStock := 100
    totalDemand := 10
    totalBackOrder := 7
    totalLateSales := 7
    pipeline := [] }

end SimBackorder

namespace SimLostSales

/-- Per-facility state of the lost-sales variant (`simLostSales.stocking_facility`),
restricted to the fields the claims are about, plus the ghost `pipeline` of
placed-but-undelivered replenishment quantities. -/
structure LNode where
  on_hand_inventory : ℚ
  inventory_position : ℚ
  ROP : ℚ
  baseStock : ℚ
  totalDemand : ℚ
  totalShipped : ℚ
  pipeline : List ℚ
  deriving DecidableEq

/-- One period of `stocking_facility.serve_customer` (simLostSales.py lines
144-153): ship `min(demand, on_hand_inventory)`, accumulate it into
`totalShipped`, and decrease on-hand and inventory position by it. -/
def serve_customer (s : LNode) (demand : ℚ) : LNode :=
  let shipment := min demand s.on_hand_inventory
  { s with
    totalDemand := s.totalDemand + demand
    totalShipped := s.totalShipped + shipment
    on_hand_inventory := s.on_hand_inventory - shipment
    inventory_position := s.inventory_position - shipment }

/-- The order-placing branch of `stocking_facility.check_inventory`
(simLostSales.py lines 106-110), identical to the backorder variant. -/
def check_inventory (s : LNode) : LNode :=
  { s with
    inventory_position := s.inventory_position + (s.baseStock - s.on_hand_inventory)
    pipeline := s.pipeline ++ [s.baseStock - s.on_hand_inventory] }

/-- Atomic operations of the lost-sales facility state machine
(`check_inventory`, `serve_customer`, the two decrement phases of
`prepare_replenishment` lines 118-131 with the remainder decrement gated on
the polling wait of line 127, and the delivery increment of `ship` line 141).
With `posOnly = true` the relation is restricted to runs whose sampled
demands and delivered quantities are nonnegative. -/
inductive LStep (posOnly : Bool) : LNode → LNode → Prop
  | check (s : LNode) (htrig : s.inventory_position ≤ 21/20 * s.ROP) :
      LStep posOnly s (check_inventory s)
  | serve (s : LNode) (d : ℚ) (hd : posOnly = true → 0 ≤ d) :
      LStep posOnly s (serve_customer s d)
  | fulfillShip (s : LNode) (q : ℚ) :
      LStep posOnly s
        { s with
          on_hand_inventory := s.on_hand_inventory - min q s.on_hand_inventory
          inventory_position := s.inventory_position - min q s.on_hand_inventory }
  | fulfillRemainder (s : LNode) (r : ℚ) (hcover : r ≤ s.on_hand_inventory) :
      LStep posOnly s
        { s with
          on_hand_inventory := s.on_hand_inventory - r
          inventory_position := s.inventory_position - r }
  | deliver (s : LNode) (q : ℚ) (l₁ l₂ : List ℚ) (hpipe : s.pipeline = l₁ ++ q :: l₂)
      (hq : posOnly = true → 0 ≤ q) :
      LStep posOnly s
        { s with
          on_hand_inventory := s.on_hand_inventory + q
          pipeline := l₁ ++ l₂ }

/-- Reachability under arbitrary interleavings of the lost-sales operations. -/
def LReach : LNode → LNode → Prop := Relation.ReflTransGen (LStep false)

/-- Reachability restricted to nonnegative sampled demands and delivered
quantities. -/
def LReachPos : LNode → LNode → Prop := Relation.ReflTransGen (LStep true)

/-- Initial facility state of `stocking_facility.__init__`. -/
def initLNode (initial_inv ROP base_stock : ℚ) : LNode :=
  { on_hand_inventory := initial_inv
    inventory_position := initial_inv
    ROP := ROP
    baseStock := base_stock
    totalDemand := 0
    totalShipped := 0
    pipeline := [] }

/-- Reachable lost-sales state with negative on-hand inventory. -/
def c2Bad : LNode :=
  { on_hand_inventory := -20
    inventory_position := -20
    ROP := 200
    baseStock := 100
    totalDemand := 120
    totalShipped := 120
    pipeline := [] }

/-- Intermediate state after the reorder trigger of the C2 counterexample. -/
def c2Mid1 : LNode :=
  { on_hand_inventory := 150
    inventory_position := 100
    ROP := 200
    baseStock := 100
    totalDemand := 0
    totalShipped := 0
    pipeline := [-50] }

/-- Intermediate state after the demand period of the C2 counterexample. -/
def c2Mid2 : LNode :=
  { on_hand_inventory := 30
    inventory_position := -20
    ROP := 200
    baseStock := 100
    totalDemand := 120
    totalShipped := 120
    pipeline := [-50] }

end SimLostSales

namespace ReorderCheck

/-- Facility fields read and written by one tick of the reorder-check process;
the code of `check_inventory` is byte-identical in the two variants
(simBackorder.py lines 104-111, simLostSales.py lines 103-110). -/
structure ChkFac where
  on_hand_inventory : ℚ
  inventory_position : ℚ
  ROP : ℚ
  baseStock : ℚ
  deriving DecidableEq

/-- One tick of `check_inventory` acting on the facility together with the
upstream facility's order queue (quantities only). -/
def check_inventory_tick (f : ChkFac) (upstream_q : List ℚ) : ChkFac × List ℚ :=
  if f.inventory_position ≤ 21/20 * f.ROP then
    let order_qty := f.baseStock - f.on_hand_inventory
    ({ f with inventory_position := f.inventory_position + order_qty },
     upstream_q ++ [order_qty])
  else (f, upstream_q)

end ReorderCheck

namespace Fulfillment

/-- Outcome of `prepare_replenishment` on one popped order at the source
facility.  In both variants the code computes
`shipment = min(orderQty, on_hand_inventory)` and, when the remainder is
nonzero, suspends on the predicate `on_hand_inventory >= remaining_order`
before spawning the delivery (simBackorder.py lines 128-141, simLostSales.py
lines 118-132).  The source's on-hand inventory is constant over a run: the
`isSource` guard skips both fulfillment decrements, the source's demand
series is the all-zero placeholder so its demand shipments are zero, and no
delivery ever targets the source (it has no upstream to order from).  Hence
the wait predicate either holds at once or never holds: `some qty` means a
delivery of the full order quantity is spawned, `none` means the fulfillment
process is blocked for the rest of the horizon. -/
def prepare_one_source (on_hand orderQty : ℚ) : Option ℚ :=
  let shipment := min orderQty on_hand
  let remaining_order := orderQty - shipment
  if remaining_order = 0 then some orderQty
  else if remaining_order ≤ on_hand then some orderQty
  else none

/-- Fulfillment-process view of one facility: its order queue, the popped
order it may be waiting on (`waiting = some (orderQty, remaining_order)`
corresponds to being suspended inside the wait of simBackorder.py line 137 /
simLostSales.py line 127), and the ghost log `shipped` of quantities handed
to spawned delivery processes. -/
structure FulFac where
  isSource : Bool
  on_hand_inventory : ℚ
  inventory_position : ℚ
  order_q : List ℚ
  waiting : Option (ℚ × ℚ)
  shipped : List ℚ
  deriving DecidableEq

/-- Popping the oldest order (`order_q.pop(0)`) and running
`prepare_replenishment` up to either the spawn of the delivery (order fully
covered) or the suspension on the remainder predicate. -/
def popOrder (f : FulFac) (o : ℚ) (rest : List ℚ) : FulFac :=
  let shipment := min o f.on_hand_inventory
  let f1 :=
    if f.isSource then f
    else
      { f with
        on_hand_inventory := f.on_hand_inventory - shipment
        inventory_position := f.inventory_position - shipment }
  let remaining_order := o - shipment
  if remaining_order = 0 then
    { f1 with order_q := rest, waiting := none, shipped := f.shipped ++ [o] }
  else
    { f1 with order_q := rest, waiting := some (o, remaining_order) }

/-- Resuming a suspended fulfillment once on-hand covers the remainder:
decrement (unless source) and spawn the delivery of the full order
quantity. -/
def resumeOrder (f : FulFac) (o r : ℚ) : FulFac :=
  let f1 :=
    if f.isSource then f
    else
      { f with
        on_hand_inventory := f.on_hand_inventory - r
        inventory_position := f.inventory_position - r }
  { f1 with waiting := none, shipped := f.shipped ++ [o] }

/-- Events visible to one facility's fulfillment process: popping an order
when idle, resuming a suspended order once the wait predicate holds, a
downstream facility enqueueing a new order, a delivery restocking this
facility, and a demand period decrementing on-hand (`min a on_hand` covers
both variants' demand shipments). -/
inductive FStep : FulFac → FulFac → Prop
  | pop (f : FulFac) (o : ℚ) (rest : List ℚ)
      (hw : f.waiting = none) (hq : f.order_q = o :: rest) :
      FStep f (popOrder f o rest)
  | resume (f : FulFac) (o r : ℚ)
      (hw : f.waiting = some (o, r)) (hcover : r ≤ f.on_hand_inventory) :
      FStep f (resumeOrder f o r)
  | enqueue (f : FulFac) (q : ℚ) :
      FStep f { f with order_q := f.order_q ++ [q] }
  | restock (f : FulFac) (q : ℚ) :
      FStep f { f with on_hand_inventory := f.on_hand_inventory + q }
  | serveDec (f : FulFac) (a : ℚ) :
      FStep f
        { f with
          on_hand_inventory := f.on_hand_inventory - min a f.on_hand_inventory
          inventory_position := f.inventory_position - min a f.on_hand_inventory }

/-- A chain of fulfillment-visible events: `FChain f l` records the
successive states after each event starting from `f`. -/
inductive FChain : FulFac → List FulFac → Prop
  | nil (f : FulFac) : FChain f []
  | cons (f g : FulFac) (l : List FulFac)
      (hstep : FStep f g) (hrest : FChain g l) : FChain f (g :: l)

/-- Concrete facility suspended on a popped order of quantity 7 with
remainder 5, holding 1 unit, with one later order (quantity 9) queued. -/
def c10Fac : FulFac :=
  { isSource := false
    on_hand_inventory := 1
    inventory_position := 1
    order_q := [9]
    waiting := some (7, 5)
    shipped := [] }

/-- State of `c10Fac` after a downstream facility enqueues one more order. -/
def c10Next : FulFac := { c10Fac with order_q := c10Fac.order_q ++ [3] }

end Fulfillment

namespace Orchestration

/-- Entry `network[i][j]` of the adjacency matrix (0 when out of range). -/
def netEntry (network : List (List ℕ)) (i j : ℕ) : ℕ :=
  (network.getD i []).getD j 0

/-- simBackorder.py lines 202-205: a `place_replenishment_order` process is
activated for every pair with `network[i][j] == 1` (supplier `i`, requester
`j`), with no validation — a requester column with no 1 simply gets no
reorder process, and one with several 1s gets several. -/
def reorder_process_pairs (network : List (List ℕ)) (num_nodes : ℕ) :
    List (ℕ × ℕ) :=
  (List.range num_nodes).foldl
    (fun acc i =>
      acc ++ ((List.range num_nodes).filter
        (fun j => netEntry network i j = 1)).map (fun j => (i, j)))
    []

/-- simLostSales.py lines 170-174: the upstream facility of node `i` is the
first `j` with `network[j][i] == 1` (the inner loop breaks at the first
hit), `none` when no such `j` exists. -/
def find_upstream (network : List (List ℕ)) (num_nodes i : ℕ) : Option ℕ :=
  (List.range num_nodes).find? (fun j => netEntry network j i = 1)

/-- simLostSales.py lines 164-176: which facility object ends up in each slot
of the `nodes` list, identified by the node id the object was constructed
for.  Slot 0 is the source.  For `i > 0` with an upstream hit, a fresh
facility for node `i` is appended; with no hit the loop body never
reassigns the Python variable `s`, so `nodes.append(s)` silently appends the
facility object left over from the previous iteration (the last appended
one) — no error is raised. -/
def nodes_slot_ids (network : List (List ℕ)) (num_nodes : ℕ) : List ℕ :=
  (List.range num_nodes).foldl
    (fun acc i =>
      if i = 0 then acc ++ [0]
      else
        match find_upstream network num_nodes i with
        | some _ => acc ++ [i]
        | none => acc ++ [acc.getLastD 0])
    []

end Orchestration

namespace SimBackorder

/-- Post-run service-level computation of `simulate_network`
(simBackorder.py line 211): `1 - totalLateSales / (totalDemand + 1.0e-5)`. -/
def serviceLevel (totalLateSales totalDemand : ℚ) : ℚ :=
  1 - totalLateSales / (totalDemand + 1/100000)

/-- Iterated source demand periods in the backorder variant: the source's
demand series is the all-zero placeholder `np.zeros(100)`, so every
bootstrap draw is 0. -/
def iterate_source_demand (s : BNode) : ℕ → BNode
  | 0 => s
  | n + 1 => serve_customer (iterate_source_demand s n) 0

end SimBackorder

namespace SimLostSales

/-- Post-run service-level computation of `simulate_network`
(simLostSales.py line 182): `totalShipped / (totalDemand + 1.0e-5)`. -/
def serviceLevel (totalShipped totalDemand : ℚ) : ℚ :=
  totalShipped / (totalDemand + 1/100000)

/-- Iterated source demand periods in the lost-sales variant (all sampled
demands are 0 at the source). -/
def iterate_source_demand (s : LNode) : ℕ → LNode
  | 0 => s
  | n + 1 => serve_customer (iterate_source_demand s n) 0

end SimLostSales

namespace Orchestration

/-- The `np.mean` of a recorded on-hand series. -/
def listMean (l : List ℚ) : ℚ := l.sum / l.length

/-- Post-run loop of simBackorder.py lines 210-211: the service-level formula
is applied to every node's `(totalLateSales, totalDemand)` counters,
including node 0's. -/
def serviceLevel_results_backorder (counters : List (ℚ × ℚ)) : List ℚ :=
  counters.map (fun c => SimBackorder.serviceLevel c.1 c.2)

/-- Post-run loop of simLostSales.py lines 181-182: the service-level formula
is applied to every node's `(totalShipped, totalDemand)` counters, including
node 0's. -/
def serviceLevel_results_lostsales (counters : List (ℚ × ℚ)) : List ℚ :=
  counters.map (fun c => SimLostSales.serviceLevel c.1 c.2)

/-- Post-run loop of simBackorder.py lines 214-218 / simLostSales.py lines
185-189: node 0's average on-hand is special-cased to 0, every other node
gets the mean of its recorded on-hand series. -/
def avgOnHand_results (series : List (List ℚ)) : List ℚ :=
  (List.range series.length).map
    (fun i => if i = 0 then 0 else listMean (series.getD i []))

end Orchestration

namespace SimLostSales

/-- States of the C7 counterexample trace: a facility with
`initial_inv = 150`, `ROP = 200`, `baseStock = 0` and the all-zero demand
series.  Two reorder ticks each place an order of `0 - 150 = -150`
(the trigger holds: inventory position 150 then 0, both `≤ 210`). -/
def c7a : LNode :=
  { on_hand_inventory := 150
    inventory_position := 0
    ROP := 200
    baseStock := 0
    totalDemand := 0
    totalShipped := 0
    pipeline := [-150] }

/-- Second state of the C7 counterexample trace. -/
def c7b : LNode :=
  { on_hand_inventory := 150
    inventory_position := -150
    ROP := 200
    baseStock := 0
    totalDemand := 0
    totalShipped := 0
    pipeline := [-150, -150] }

/-- Third state of the C7 counterexample trace (first delivery arrived). -/
def c7c : LNode :=
  { on_hand_inventory := 0
    inventory_position := -150
    ROP := 200
    baseStock := 0
    totalDemand := 0
    totalShipped := 0
    pipeline := [-150] }

/-- Fourth state of the C7 counterexample trace (second delivery arrived). -/
def c7d : LNode :=
  { on_hand_inventory := -150
    inventory_position := -150
    ROP := 200
    baseStock := 0
    totalDemand := 0
    totalShipped := 0
    pipeline := [] }

/-- Final state of the C7 counterexample trace: a zero-demand period at
negative on-hand ships `min(0, -150) = -150`, driving `totalShipped`
negative while `totalDemand` stays 0. -/
def c7e : LNode :=
  { on_hand_inventory := 0
    inventory_position := 0
    ROP := 200
    baseStock := 0
    totalDemand := 0
    totalShipped := -150
    pipeline := [] }

end SimLostSales

namespace Engine

/-- Deterministic model of the seeded NumPy global generator:
`np.random.seed(seedinit)` fixes the generator state as a function of the
seed alone, and each `np.random.choice(series)` consumes one state
transition and returns the element the current state indexes.  The concrete
MT19937 stream is an external library detail; the engine relies only on the
generator being a deterministic function of its state, which this model
makes explicit. -/
def npNext (g : ℕ) : ℕ :=
  (6364136223846793005 * g + 1442695040888963407) % (2 ^ 64)

/-- State installed by `np.random.seed(seedinit)` — a function of the seed
alone, independent of whatever the global generator state was before. -/
def npSeed (seedinit : ℕ) : ℕ := seedinit % (2 ^ 32)

/-- One bootstrap draw `np.random.choice(series, replace=True)`. -/
def npChoice (series : List ℚ) (g : ℕ) : ℚ × ℕ :=
  (series.getD (g % series.length) 0, npNext g)

/-- One bootstrap draw from the integer lead-time-delay series. -/
def npChoiceNat (series : List ℕ) (g : ℕ) : ℕ × ℕ :=
  (series.getD (g % series.length) 0, npNext g)

/-- Arguments of `simulate_network` (both variants): node count, adjacency
matrix, per-node initial inventory, reorder points and base stocks, the
demand history in columns (`demand[:, i-1]` is node `i`'s series), per-node
default lead times and the shared lead-time-delay series.  Lead times are
whole periods, as in the repository's configurations. -/
structure Params where
  num_nodes : ℕ
  network : List (List ℕ)
  initial_inv : List ℚ
  ROP : List ℚ
  base_stock : List ℚ
  demand : List (List ℚ)
  lead_time : List ℕ
  lead_time_delay : List ℕ

/-- Runtime state of one facility inside the engine, carrying both variants'
counters. -/
structure EFac where
  isSource : Bool
  on_hand_inventory : ℚ
  inventory_position : ℚ
  ROP : ℚ
  baseStock : ℚ
  histDemand : List ℚ
  defaultLeadTime : ℕ
  order_q : List (ℕ × ℚ)
  pending : Option (ℕ × ℚ × ℚ)
  totalDemand : ℚ
  totalBackOrder : ℚ
  totalLateSales : ℚ
  totalShipped : ℚ
  onHandMon : List ℚ
  deriving DecidableEq

/-- Placeholder facility for out-of-range accesses (never reached on
well-formed inputs). -/
def dummyFac : EFac :=
  { isSource := false
    on_hand_inventory := 0
    inventory_position := 0
    ROP := 0
    baseStock := 0
    histDemand := []
    defaultLeadTime := 0
    order_q := []
    pending := none
    totalDemand := 0
    totalBackOrder := 0
    totalLateSales := 0
    totalShipped := 0
    onHandMon := [] }

/-- Global engine state: the generator, the facilities, the in-flight
deliveries `(due tick, requesting node, quantity)`, and a ghost log of order
placements `(tick, requesting node, quantity)`. -/
structure EState where
  rng : ℕ
  facs : List EFac
  deliveries : List (ℕ × ℕ × ℚ)
  orderLog : List (ℕ × ℕ × ℚ)
  deriving DecidableEq

/-- Facility construction (`stocking_facility.__init__`): node 0 is the
source with the all-zero demand placeholder `np.zeros(100)`; node `i > 0`
gets column `i-1` of the demand history. -/
def buildNodes (p : Params) : List EFac :=
  (List.range p.num_nodes).map (fun i =>
    { dummyFac with
      isSource := i = 0
      on_hand_inventory := p.initial_inv.getD i 0
      inventory_position := p.initial_inv.getD i 0
      ROP := p.ROP.getD i 0
      baseStock := p.base_stock.getD i 0
      histDemand := if i = 0 then List.replicate 100 0 else p.demand.getD (i - 1) []
      defaultLeadTime := p.lead_time.getD i 0
      onHandMon := [p.initial_inv.getD i 0] })

/-- One per-tick slot of a registered process. -/
inductive Slot
  | check (requester upstream : ℕ)
  | prepare (node : ℕ)
  | serve (node : ℕ)
  deriving DecidableEq

/-- Per-tick resumption order of the lost-sales variant: processes are
started per node in construction order (`check_inventory`,
`prepare_replenishment`, `serve_customer`, simLostSales.py lines 97-99), so
their timeouts resume in that order at every tick.  The source's
reorder-check is omitted: its `upstream` is `None` and the code would raise
if the source's trigger ever fired, so the engine models the runs where it
does not. -/
def slotsLostSales (p : Params) : List Slot :=
  (List.range p.num_nodes).foldl
    (fun acc i =>
      acc ++
        (if i = 0 then [Slot.prepare i, Slot.serve i]
         else
           [Slot.check i ((Orchestration.find_upstream p.network p.num_nodes i).getD 0),
            Slot.prepare i, Slot.serve i]))
    []

/-- Per-tick resumption order of the backorder variant: for each node `i` in
order, `customer_demand` then `fulfill_replenishment_order` are activated,
followed by one `place_replenishment_order` per requester `j` with
`network[i][j] == 1` (simBackorder.py lines 197-205). -/
def slotsBackorder (p : Params) : List Slot :=
  (List.range p.num_nodes).foldl
    (fun acc i =>
      acc ++ [Slot.serve i, Slot.prepare i]
        ++ ((List.range p.num_nodes).filter
              (fun j => Orchestration.netEntry p.network i j = 1)).map
            (fun j => Slot.check j i))
    []

/-- One reorder-check tick (`check_inventory`): under the trigger, enqueue
`(requester, baseStock - on_hand)` on the upstream queue, bump the
requester's inventory position, and log the placement. -/
def doCheck (st : EState) (t requester upstream : ℕ) : EState :=
  let f := st.facs.getD requester dummyFac
  if f.inventory_position ≤ 21/20 * f.ROP then
    let order_qty := f.baseStock - f.on_hand_inventory
    let u := st.facs.getD upstream dummyFac
    let facs1 := st.facs.set upstream
      { u with order_q := u.order_q ++ [(requester, order_qty)] }
    let f2 := facs1.getD requester dummyFac
    { st with
      facs := facs1.set requester
        { f2 with inventory_position := f2.inventory_position + order_qty }
      orderLog := st.orderLog ++ [(t, requester, order_qty)] }
  else st

/-- One demand tick (`serve_customer`), with the variant's bookkeeping, a
bootstrap draw from the facility's demand series, and the on-hand monitor
record. -/
def doServe (backorder : Bool) (st : EState) (i : ℕ) : EState :=
  let f := st.facs.getD i dummyFac
  let dg := npChoice f.histDemand st.rng
  let d := dg.1
  let f1 := { f with totalDemand := f.totalDemand + d }
  let f2 :=
    if backorder then
      let shipment := min (d + f1.totalBackOrder) f1.on_hand_inventory
      let bo := d - shipment
      { f1 with
        on_hand_inventory := f1.on_hand_inventory - shipment
        inventory_position := f1.inventory_position - shipment
        totalBackOrder := f1.totalBackOrder + bo
        totalLateSales := f1.totalLateSales + max 0 bo }
    else
      let shipment := min d f1.on_hand_inventory
      { f1 with
        totalShipped := f1.totalShipped + shipment
        on_hand_inventory := f1.on_hand_inventory - shipment
        inventory_position := f1.inventory_position - shipment }
  { st with
    rng := dg.2
    facs := st.facs.set i
      { f2 with onHandMon := f2.onHandMon ++ [f2.on_hand_inventory] } }

/-- Spawning a delivery (`ship`): draw the lead-time delay at spawn, schedule
the increment at `t + defaultLeadTime(requester) + delay`. -/
def spawnShip (p : Params) (st : EState) (t requester : ℕ) (qty : ℚ) : EState :=
  let rf := st.facs.getD requester dummyFac
  let dg := npChoiceNat p.lead_time_delay st.rng
  { st with
    rng := dg.2
    deliveries := st.deliveries ++ [(t + rf.defaultLeadTime + dg.1, requester, qty)] }

/-- Resumption of a suspended fulfillment (`prepare_replenishment` after its
wait): once on-hand covers the remainder, decrement (unless source) and
spawn the delivery of the full order quantity. -/
def prepareResume (p : Params) (st : EState) (t i : ℕ) : EState :=
  let f := st.facs.getD i dummyFac
  match f.pending with
  | none => st
  | some (req, oq, rem) =>
    if rem ≤ f.on_hand_inventory then
      let f1 :=
        if f.isSource then f
        else
          { f with
            on_hand_inventory := f.on_hand_inventory - rem
            inventory_position := f.inventory_position - rem }
      spawnShip p { st with facs := st.facs.set i { f1 with pending := none } } t req oq
    else st

/-- Popping and processing the oldest order (`order_q.pop(0)`): ship
`min(orderQty, on_hand)`, decrement unless source, then either spawn the
delivery (remainder zero, or the wait predicate already true) or suspend on
the remainder. -/
def drainOne (p : Params) (st : EState) (t i : ℕ) : EState :=
  let f := st.facs.getD i dummyFac
  match f.order_q with
  | [] => st
  | (req, oq) :: rest =>
    let shipment := min oq f.on_hand_inventory
    let f1 :=
      if f.isSource then f
      else
        { f with
          on_hand_inventory := f.on_hand_inventory - shipment
          inventory_position := f.inventory_position - shipment }
    let remaining := oq - shipment
    if remaining = 0 then
      spawnShip p { st with facs := st.facs.set i { f1 with order_q := rest } } t req oq
    else if remaining ≤ f1.on_hand_inventory then
      let f2 :=
        if f.isSource then f1
        else
          { f1 with
            on_hand_inventory := f1.on_hand_inventory - remaining
            inventory_position := f1.inventory_position - remaining }
      spawnShip p { st with facs := st.facs.set i { f2 with order_q := rest } } t req oq
    else
      { st with
        facs := st.facs.set i
          { f1 with order_q := rest, pending := some (req, oq, remaining) } }

/-- Draining the queue at one instant: the fulfillment loop pops orders
without consuming simulated time as long as it is not suspended and orders
remain (simLostSales.py lines 114-132; the SimPy 2.0 `waituntil` of
simBackorder.py line 122 likewise resumes within the same tick). -/
def drainQueue (p : Params) : ℕ → EState → ℕ → ℕ → EState
  | 0, st, _, _ => st
  | fuel + 1, st, t, i =>
    let f := st.facs.getD i dummyFac
    if f.pending = none ∧ f.order_q ≠ [] then
      drainQueue p fuel (drainOne p st t i) t i
    else st

/-- One fulfillment tick: re-check a suspended wait (polling, once per
period), then drain the queue while unblocked. -/
def doPrepare (p : Params) (st : EState) (t i : ℕ) : EState :=
  let st1 := prepareResume p st t i
  let f := st1.facs.getD i dummyFac
  if f.pending = none then drainQueue p f.order_q.length st1 t i else st1

/-- Deliveries due at tick `t` are applied first (their events were scheduled
earlier than the tick's process timeouts), in scheduling order. -/
def applyDeliveries (st : EState) (t : ℕ) : EState :=
  let due := st.deliveries.filter (fun dl => dl.1 = t)
  let facs := due.foldl
    (fun fs dl =>
      let f := fs.getD dl.2.1 dummyFac
      fs.set dl.2.1 { f with on_hand_inventory := f.on_hand_inventory + dl.2.2 })
    st.facs
  { st with
    facs := facs
    deliveries := st.deliveries.filter (fun dl => ¬ dl.1 = t) }

/-- Dispatch of one slot. -/
def runSlot (backorder : Bool) (p : Params) (t : ℕ) (st : EState) :
    Slot → EState
  | Slot.check requester upstream => doCheck st t requester upstream
  | Slot.prepare i => doPrepare p st t i
  | Slot.serve i => doServe backorder st i

/-- One simulated period: apply due deliveries, then resume every process in
its registration order. -/
def runTick (backorder : Bool) (p : Params) (slots : List Slot) (st : EState)
    (t : ℕ) : EState :=
  slots.foldl (runSlot backorder p t) (applyDeliveries st t)

/-- The horizon `simulate(until=360)` / `env.run(until=360)`: integer-tick
events at times 1 .. 359 are processed before the clock reaches 360. -/
def runHorizon (backorder : Bool) (p : Params) (slots : List Slot)
    (st : EState) : EState :=
  (List.range 359).foldl (fun s k => runTick backorder p slots s (k + 1)) st

/-- Initial engine state for a replication. -/
def initState (p : Params) (g : ℕ) : EState :=
  { rng := g
    facs := buildNodes p
    deliveries := []
    orderLog := [] }

/-- Post-run metrics per node: the variant's service-level formula applied to
every node's counters, and the average on-hand (0 for the source). -/
def results (backorder : Bool) (st : EState) : List (ℚ × ℚ) :=
  (List.range st.facs.length).map (fun i =>
    let f := st.facs.getD i dummyFac
    (if backorder then SimBackorder.serviceLevel f.totalLateSales f.totalDemand
     else SimLostSales.serviceLevel f.totalShipped f.totalDemand,
     if i = 0 then 0 else Orchestration.listMean f.onHandMon))

/-- The whole of `simulate_network`, threading the ambient global generator
state explicitly: the call `np.random.seed(seedinit)` replaces whatever
state `global_rng` held, so the run depends on the seed and parameters
alone.  Returns the per-node `(serviceLevel, avgOnHand)` records together
with the ghost log of order placements (their times and quantities). -/
def simulate_network (backorder : Bool) (global_rng seedinit : ℕ) (p : Params) :
    List (ℚ × ℚ) × List (ℕ × ℕ × ℚ) :=
  let slots := if backorder then slotsBackorder p else slotsLostSales p
  let final := runHorizon backorder p slots (initState p (npSeed seedinit))
  (results backorder final, final.orderLog)

end Engine

namespace SimBackorder

/-- Helper arithmetic fact relating the code's backorder update to its
positive-part form. -/
theorem backorder_update_eq_posPart (a d h : ℚ) :
    a + (d - min (d + a) h) = max 0 (a + d - h) := by
  rcases le_total (d + a) h with hc | hc
  · rw [min_eq_left hc, max_eq_left (by linarith)]
    ring
  · rw [min_eq_right hc, max_eq_right (by linarith)]
    ring

/-- C4: each backorder-variant demand period ships
`min(demand + totalBackOrder, on_hand_inventory)`, decreases on-hand and
inventory position by exactly that shipment, carries
`totalBackOrder + (demand - shipment)` (the positive part of
`totalBackOrder + demand - on_hand_inventory`) into the next period as the
new `totalBackOrder`, accumulates `max 0 (demand - shipment)` into
`totalLateSales`, and adds the demand into `totalDemand`. -/
theorem C4_backorder_demand_step (s : BNode) (d : ℚ) :
    (serve_customer s d).on_hand_inventory
        = s.on_hand_inventory - min (d + s.totalBackOrder) s.on_hand_inventory
    ∧ (serve_customer s d).inventory_position
        = s.inventory_position - min (d + s.totalBackOrder) s.on_hand_inventory
    ∧ (serve_customer s d).totalBackOrder
        = s.totalBackOrder + (d - min (d + s.totalBackOrder) s.on_hand_inventory)
    ∧ (serve_customer s d).totalBackOrder
        = max 0 (s.totalBackOrder + d - s.on_hand_inventory)
    ∧ (serve_customer s d).totalLateSales
        = s.totalLateSales + max 0 (d - min (d + s.totalBackOrder) s.on_hand_inventory)
    ∧ (serve_customer s d).totalDemand = s.totalDemand + d := by
  refine ⟨rfl, rfl, rfl, ?_, rfl, rfl⟩
  simp only [serve_customer]
  exact backorder_update_eq_posPart s.totalBackOrder d s.on_hand_inventory

/-- C1 (amended): the identity the backorder code actually maintains is
`inventory_position = on_hand_inventory + (sum of placed-but-undelivered
order quantities)`, with no `totalBackOrder` term; it holds initially and is
preserved by the reorder-check, fulfillment, delivery, and demand
operations. -/
theorem C1_inventory_position_identity (init s : BNode)
    (hpipe : init.pipeline = [])
    (hpos : init.inventory_position = init.on_hand_inventory)
    (hr : BReach init s) :
    s.inventory_position = s.on_hand_inventory + s.pipeline.sum := by
  induction hr with
  | refl => simp [hpipe, hpos]
  | tail _ hstep ih =>
    cases hstep with
    | check htrig =>
      simp only [check_inventory, List.sum_append, List.sum_cons, List.sum_nil]
      linarith
    | serve d hd =>
      simp only [serve_customer]
      linarith
    | fulfillShip q =>
      simp only []
      linarith
    | fulfillRemainder r hcover =>
      simp only []
      linarith
    | deliver q l₁ l₂ hpipe2 hq =>
      simp only [List.sum_append, List.sum_cons] at ih ⊢
      rw [hpipe2] at ih
      simp only [List.sum_append, List.sum_cons] at ih
      linarith

/-- Witness for C1 at a concrete initial state. -/
theorem C1_inventory_position_identity_witness :
    (initBNode 3 20 100).inventory_position
      = (initBNode 3 20 100).on_hand_inventory + (initBNode 3 20 100).pipeline.sum :=
  C1_inventory_position_identity (initBNode 3 20 100) (initBNode 3 20 100)
    rfl rfl Relation.ReflTransGen.refl

/-- C1 counterexample: from the initial state with `initial_inv = 3`
(so `inventory_position = on_hand = 3`, no open orders, no backorder), a
single demand period with sampled demand 10 reaches a state whose inventory
position (0) differs from on-hand plus open orders minus `totalBackOrder`
(0 + 0 - 7 = -7): the code decreases the position only by the shipment, so
the claimed identity with the `- totalBackOrder` term fails. -/
theorem C1_counterexample :
    (initBNode 3 20 100).pipeline = []
    ∧ (initBNode 3 20 100).inventory_position = (initBNode 3 20 100).on_hand_inventory
    ∧ BReach (initBNode 3 20 100) c1Bad
    ∧ c1Bad.inventory_position
        ≠ c1Bad.on_hand_inventory + c1Bad.pipeline.sum - c1Bad.totalBackOrder := by
  refine ⟨rfl, rfl, ?_, by norm_num [c1Bad]⟩
  have e : serve_customer (initBNode 3 20 100) 10 = c1Bad := by
    simp [serve_customer, initBNode, c1Bad]
    norm_num [min_def]
  exact Relation.ReflTransGen.single
    (e ▸ BStep.serve (initBNode 3 20 100) 10 (fun _ => by norm_num))

end SimBackorder

namespace SimLostSales

/-- C2 (amended): in the lost-sales variant the demand shipment is always
`min(demand, on_hand_inventory) ≤ on_hand_inventory` at the moment of the
decrement, and `on_hand_inventory ≥ 0` holds in every reachable state
provided every delivered replenishment quantity is nonnegative (without that
proviso a negative-quantity order, placed when `baseStock <
on_hand_inventory` at a reorder trigger, is delivered as a negative increment
that can drive on-hand inventory below zero — see the counterexample). -/
theorem C2_lost_sales_conservation (init s : LNode)
    (h0 : 0 ≤ init.on_hand_inventory)
    (hr : LReachPos init s) :
    0 ≤ s.on_hand_inventory
    ∧ ∀ d : ℚ,
        min d s.on_hand_inventory ≤ s.on_hand_inventory
        ∧ (serve_customer s d).on_hand_inventory
            = s.on_hand_inventory - min d s.on_hand_inventory := by
  have hinv : 0 ≤ s.on_hand_inventory := by
    induction hr with
    | refl => exact h0
    | tail _ hstep ih =>
      cases hstep with
      | check htrig => simpa [check_inventory] using ih
      | serve d hd =>
        simp only [serve_customer]
        exact sub_nonneg.mpr (min_le_right _ _)
      | fulfillShip q =>
        exact sub_nonneg.mpr (min_le_right _ _)
      | fulfillRemainder r hcover =>
        exact sub_nonneg.mpr hcover
      | deliver q l₁ l₂ hpipe hq =>
        exact add_nonneg ih (hq rfl)
  exact ⟨hinv, fun d => ⟨min_le_right d _, rfl⟩⟩

/-- Witness for C2 at a concrete initial state. -/
theorem C2_lost_sales_conservation_witness :
    0 ≤ (initLNode 150 200 100).on_hand_inventory
    ∧ ∀ d : ℚ,
        min d (initLNode 150 200 100).on_hand_inventory
            ≤ (initLNode 150 200 100).on_hand_inventory
        ∧ (serve_customer (initLNode 150 200 100) d).on_hand_inventory
            = (initLNode 150 200 100).on_hand_inventory
              - min d (initLNode 150 200 100).on_hand_inventory :=
  C2_lost_sales_conservation (initLNode 150 200 100) (initLNode 150 200 100)
    (by norm_num [initLNode]) Relation.ReflTransGen.refl

/-- C2 counterexample: a facility with `initial_inv = 150`, `ROP = 200`,
`baseStock = 100` triggers a reorder of quantity `100 - 150 = -50` (the
reorder threshold `150 ≤ 1.05 * 200` holds); one demand period of 120 then
reduces on-hand to 30, and the delivery of the placed `-50` order drives
on-hand inventory to `-20 < 0`.  The trace follows the scheduler's actual
resumption order (check before serve at the same tick, delivery after the
default-plus-sampled lead time). -/
theorem C2_counterexample :
    0 ≤ (initLNode 150 200 100).on_hand_inventory
    ∧ LReach (initLNode 150 200 100) c2Bad
    ∧ c2Bad.on_hand_inventory < 0 := by
  refine ⟨by norm_num [initLNode], ?_, by norm_num [c2Bad]⟩
  have e1 : check_inventory (initLNode 150 200 100) = c2Mid1 := by
    simp [check_inventory, initLNode, c2Mid1]
    norm_num
  have h1 : LStep false (initLNode 150 200 100) c2Mid1 :=
    e1 ▸ LStep.check (initLNode 150 200 100) (by norm_num [initLNode])
  have e2 : serve_customer c2Mid1 120 = c2Mid2 := by
    simp [serve_customer, c2Mid1, c2Mid2]
    norm_num [min_def]
  have h2 : LStep false c2Mid1 c2Mid2 :=
    e2 ▸ LStep.serve c2Mid1 120 (fun _ => by norm_num)
  have e3 : ({ c2Mid2 with
      on_hand_inventory := c2Mid2.on_hand_inventory + (-50)
      pipeline := ([] : List ℚ) ++ [] } : LNode) = c2Bad := by
    simp [c2Mid2, c2Bad]
    norm_num
  have h3 : LStep false c2Mid2 c2Bad :=
    e3 ▸ LStep.deliver c2Mid2 (-50) [] [] rfl (fun h => by cases h)
  exact Relation.ReflTransGen.head h1
    (Relation.ReflTransGen.head h2 (Relation.ReflTransGen.single h3))

end SimLostSales

namespace ReorderCheck

/-- C3 (amended): in both variants, whenever the reorder trigger fires the
facility unconditionally enqueues an order of quantity
`baseStock - on_hand_inventory` on the upstream queue — even when that
quantity is negative — and its inventory position changes by exactly that
quantity; a negative quantity is not treated as an error (the operation is
total), but it is not suppressed either. -/
theorem C3_reorder_always_enqueues (f : ChkFac) (q : List ℚ)
    (htrig : f.inventory_position ≤ 21/20 * f.ROP) :
    (check_inventory_tick f q).2 = q ++ [f.baseStock - f.on_hand_inventory]
    ∧ (check_inventory_tick f q).1.inventory_position
        = f.inventory_position + (f.baseStock - f.on_hand_inventory) := by
  rw [check_inventory_tick, if_pos htrig]
  exact ⟨rfl, rfl⟩

/-- Witness for C3 at a concrete facility. -/
theorem C3_reorder_always_enqueues_witness :
    (check_inventory_tick ⟨150, 150, 200, 100⟩ []).2 = [] ++ [(100 : ℚ) - 150]
    ∧ (check_inventory_tick ⟨150, 150, 200, 100⟩ []).1.inventory_position
        = 150 + ((100 : ℚ) - 150) :=
  C3_reorder_always_enqueues ⟨150, 150, 200, 100⟩ [] (by norm_num)

/-- C3 counterexample: with on-hand 150, inventory position 150, `ROP = 200`
and `baseStock = 100`, the trigger `150 ≤ 1.05 * 200` holds and
`baseStock - on_hand = -50 < 0`, yet the code does enqueue an order (the
upstream queue is no longer empty) and does change the inventory position
(150 to 100), contradicting the claim that no order is issued and the
position is unchanged that period. -/
theorem C3_counterexample :
    (⟨150, 150, 200, 100⟩ : ChkFac).inventory_position
        ≤ 21/20 * (⟨150, 150, 200, 100⟩ : ChkFac).ROP
    ∧ (⟨150, 150, 200, 100⟩ : ChkFac).baseStock
        - (⟨150, 150, 200, 100⟩ : ChkFac).on_hand_inventory < 0
    ∧ (check_inventory_tick ⟨150, 150, 200, 100⟩ []).2 ≠ []
    ∧ (check_inventory_tick ⟨150, 150, 200, 100⟩ []).1.inventory_position
        ≠ (⟨150, 150, 200, 100⟩ : ChkFac).inventory_position := by
  have e : check_inventory_tick ⟨150, 150, 200, 100⟩ []
      = (⟨150, 100, 200, 100⟩, [-50]) := by
    rw [check_inventory_tick, if_pos (by norm_num)]
    norm_num
  refine ⟨by norm_num, by norm_num, ?_, ?_⟩
  · rw [e]
    simp
  · rw [e]
    norm_num

end ReorderCheck

namespace Fulfillment

/-- C5: evaluating the source fulfillment at a failing input.  A source
facility holding 2 units that pops an order of quantity 5 ships
`min(5, 2) = 2`, leaves remainder 3, and then waits forever on
`on_hand_inventory >= 3`, which never holds since the source's on-hand is
pinned at 2 — no delivery is spawned and the order quantity does limit the
shipment, contradicting the claim that the source's stock never limits or
blocks fulfillment.  (An order of 4 against the same stock does ship in
full, because the wait predicate `2 >= 2` holds: the block is exactly the
stock limit.) -/
theorem C5_source_fulfillment_blocks :
    prepare_one_source 2 5 = none ∧ prepare_one_source 2 4 = some 4 := by
  constructor
  · rw [prepare_one_source]
    norm_num [min_def]
  · rw [prepare_one_source]
    norm_num [min_def]

/-- C10: head-of-line blocking.  If a facility's fulfillment process is
suspended on the remainder `r` of a popped order and on-hand inventory stays
strictly below `r` along a chain of events, then in every later state the
process is still suspended on that same order, no delivery has been spawned
(the shipped log is unchanged), and the order queue has only grown — later
orders are never popped, examined, or shipped. -/
theorem C10_head_of_line_blocking :
    ∀ (l : List FulFac) (f : FulFac) (o r : ℚ),
      f.waiting = some (o, r) →
      f.on_hand_inventory < r →
      FChain f l →
      (∀ g ∈ l, g.on_hand_inventory < r) →
      ∀ g ∈ l,
        g.waiting = some (o, r) ∧ g.shipped = f.shipped
          ∧ ∃ ext, g.order_q = f.order_q ++ ext := by
  intro l
  induction l with
  | nil =>
    intro f o r _ _ _ _ g hg
    cases hg
  | cons b t ih =>
    intro f o r hw hlow0 hc hlow
    rcases hc with _ | ⟨_, _, _, hstep, hrest⟩
    · intro g hg
      have hb : b.waiting = some (o, r) ∧ b.shipped = f.shipped
          ∧ ∃ ext, b.order_q = f.order_q ++ ext := by
        cases hstep with
        | pop o2 rest hw2 hq2 =>
          rw [hw] at hw2
          cases hw2
        | resume o2 r2 hw2 hcover =>
          rw [hw] at hw2
          injection hw2 with hpair
          injection hpair with ho2 hr2
          rw [← hr2] at hcover
          exact absurd hcover (not_le.mpr hlow0)
        | enqueue q => exact ⟨hw, rfl, [q], rfl⟩
        | restock q => exact ⟨hw, rfl, [], by simp⟩
        | serveDec a => exact ⟨hw, rfl, [], by simp⟩
      rcases List.mem_cons.mp hg with hgb | hgt
      · rw [hgb]
        exact hb
      · have hblow : b.on_hand_inventory < r := hlow b (List.mem_cons_self b t)
        have hrec := ih b o r hb.1 hblow hrest
          (fun u hu => hlow u (List.mem_cons_of_mem b hu)) g hgt
        refine ⟨hrec.1, hrec.2.1.trans hb.2.1, ?_⟩
        obtain ⟨ext1, he1⟩ := hb.2.2
        obtain ⟨ext2, he2⟩ := hrec.2.2
        exact ⟨ext1 ++ ext2, by rw [he2, he1, List.append_assoc]⟩

/-- Witness for C10 on a one-event chain. -/
theorem C10_head_of_line_blocking_witness :
    c10Next.waiting = some (7, 5) ∧ c10Next.shipped = c10Fac.shipped
      ∧ ∃ ext, c10Next.order_q = c10Fac.order_q ++ ext :=
  C10_head_of_line_blocking [c10Next] c10Fac 7 5 rfl (by norm_num [c10Fac])
    (FChain.cons c10Fac c10Next [] (FStep.enqueue c10Fac 3) (FChain.nil c10Next))
    (by
      intro g hg
      rw [List.mem_singleton.mp hg]
      norm_num [c10Next, c10Fac])
    c10Next (List.mem_singleton.mpr rfl)

end Fulfillment

namespace Orchestration

/-- C6: evaluating the construction logic at malformed topologies.  With the
3-node adjacency matrix where node 2 has no upstream (column 2 all zero),
the lost-sales constructor silently fills slot 2 with the node-1 facility
object again and the backorder constructor silently creates no reorder
process for node 2; with the matrix where node 2 has two upstreams (rows 0
and 1), the lost-sales constructor silently wires node 2 to the
lowest-index parent 0 and the backorder constructor silently activates two
reorder processes for node 2.  No configuration error is raised in any of
these cases, contradicting the claimed fail-fast behaviour. -/
theorem C6_no_topology_validation :
    nodes_slot_ids [[0, 1, 0], [0, 0, 0], [0, 0, 0]] 3 = [0, 1, 1]
    ∧ reorder_process_pairs [[0, 1, 0], [0, 0, 0], [0, 0, 0]] 3 = [(0, 1)]
    ∧ find_upstream [[0, 0, 1], [0, 0, 1], [0, 0, 0]] 3 2 = some 0
    ∧ reorder_process_pairs [[0, 0, 1], [0, 0, 1], [0, 0, 0]] 3
        = [(0, 2), (1, 2)] := by
  refine ⟨?_, ?_, ?_, ?_⟩ <;> decide

end Orchestration

namespace SimBackorder

/-- One demand period preserves counter sanity in the backorder variant when
the sampled demand is nonnegative: on-hand, backorder and late sales stay
nonnegative and cumulative late sales never exceed cumulative demand. -/
theorem bgood_step (s : BNode) (d : ℚ) (hd0 : 0 ≤ d)
    (hh : 0 ≤ s.on_hand_inventory) (hb : 0 ≤ s.totalBackOrder)
    (hl : 0 ≤ s.totalLateSales) (hld : s.totalLateSales ≤ s.totalDemand) :
    0 ≤ (serve_customer s d).on_hand_inventory
    ∧ 0 ≤ (serve_customer s d).totalBackOrder
    ∧ 0 ≤ (serve_customer s d).totalLateSales
    ∧ (serve_customer s d).totalLateSales ≤ (serve_customer s d).totalDemand := by
  have hmin : 0 ≤ min (d + s.totalBackOrder) s.on_hand_inventory :=
    le_min (by linarith) hh
  have hmax : max 0 (d - min (d + s.totalBackOrder) s.on_hand_inventory) ≤ d :=
    max_le hd0 (by linarith)
  refine ⟨sub_nonneg.mpr (min_le_right _ _), ?_, ?_, ?_⟩
  · show 0 ≤ s.totalBackOrder
      + (d - min (d + s.totalBackOrder) s.on_hand_inventory)
    rw [backorder_update_eq_posPart]
    exact le_max_left 0 _
  · exact add_nonneg hl (le_max_left 0 _)
  · show s.totalLateSales
        + max 0 (d - min (d + s.totalBackOrder) s.on_hand_inventory)
      ≤ s.totalDemand + d
    linarith

/-- Counter sanity along every backorder run with nonnegative sampled demands
and delivered quantities, from a fresh facility state. -/
theorem bgood_invariant (init s : BNode)
    (h0 : 0 ≤ init.on_hand_inventory) (h1 : init.totalBackOrder = 0)
    (h2 : init.totalLateSales = 0) (h3 : init.totalDemand = 0)
    (hr : BReachPos init s) :
    0 ≤ s.on_hand_inventory ∧ 0 ≤ s.totalBackOrder
      ∧ 0 ≤ s.totalLateSales ∧ s.totalLateSales ≤ s.totalDemand := by
  induction hr with
  | refl => rw [h1, h2, h3]; exact ⟨h0, le_refl 0, le_refl 0, le_refl 0⟩
  | tail _ hstep ih =>
    obtain ⟨ihh, ihb, ihl, ihd⟩ := ih
    cases hstep with
    | check htrig => exact ⟨ihh, ihb, ihl, ihd⟩
    | serve d hd => exact bgood_step _ d (hd rfl) ihh ihb ihl ihd
    | fulfillShip q => exact ⟨sub_nonneg.mpr (min_le_right _ _), ihb, ihl, ihd⟩
    | fulfillRemainder r hcover => exact ⟨sub_nonneg.mpr hcover, ihb, ihl, ihd⟩
    | deliver q l₁ l₂ hpipe hq => exact ⟨add_nonneg ihh (hq rfl), ihb, ihl, ihd⟩

/-- A zero-demand period at a facility with no outstanding backorder and
nonnegative stock leaves the whole facility state unchanged. -/
theorem serve_zero_fixed (s : BNode) (h0 : 0 ≤ s.on_hand_inventory)
    (hb : s.totalBackOrder = 0) : serve_customer s 0 = s := by
  cases s with
  | mk oh ip rop bstk td tbo tls pl =>
    simp only [BNode.totalBackOrder] at hb
    subst hb
    simp only [BNode.on_hand_inventory] at h0
    simp [serve_customer, min_eq_left h0]

/-- The source facility's counters stay identically zero over any number of
demand periods. -/
theorem iterate_source_demand_fixed_backorder (s : BNode) (h0 : 0 ≤ s.on_hand_inventory)
    (hb : s.totalBackOrder = 0) (n : ℕ) : iterate_source_demand s n = s := by
  induction n with
  | zero => rfl
  | succ n ih => rw [iterate_source_demand, ih, serve_zero_fixed s h0 hb]

end SimBackorder

namespace SimLostSales

/-- One demand period preserves counter sanity in the lost-sales variant when
the sampled demand is nonnegative. -/
theorem lgood_step (s : LNode) (d : ℚ) (hd0 : 0 ≤ d)
    (hh : 0 ≤ s.on_hand_inventory) (hs : 0 ≤ s.totalShipped)
    (hsd : s.totalShipped ≤ s.totalDemand) :
    0 ≤ (serve_customer s d).on_hand_inventory
    ∧ 0 ≤ (serve_customer s d).totalShipped
    ∧ (serve_customer s d).totalShipped ≤ (serve_customer s d).totalDemand := by
  have hmin0 : 0 ≤ min d s.on_hand_inventory := le_min hd0 hh
  have hmind : min d s.on_hand_inventory ≤ d := min_le_left d _
  refine ⟨sub_nonneg.mpr (min_le_right _ _), ?_, ?_⟩
  · exact add_nonneg hs hmin0
  · show s.totalShipped + min d s.on_hand_inventory ≤ s.totalDemand + d
    linarith

/-- Counter sanity along every lost-sales run with nonnegative sampled
demands and delivered quantities, from a fresh facility state. -/
theorem lgood_invariant (init s : LNode)
    (h0 : 0 ≤ init.on_hand_inventory) (h1 : init.totalShipped = 0)
    (h2 : init.totalDemand = 0)
    (hr : LReachPos init s) :
    0 ≤ s.on_hand_inventory ∧ 0 ≤ s.totalShipped
      ∧ s.totalShipped ≤ s.totalDemand := by
  induction hr with
  | refl => rw [h1, h2]; exact ⟨h0, le_refl 0, le_refl 0⟩
  | tail _ hstep ih =>
    obtain ⟨ihh, ihs, ihd⟩ := ih
    cases hstep with
    | check htrig => exact ⟨ihh, ihs, ihd⟩
    | serve d hd => exact lgood_step _ d (hd rfl) ihh ihs ihd
    | fulfillShip q => exact ⟨sub_nonneg.mpr (min_le_right _ _), ihs, ihd⟩
    | fulfillRemainder r hcover => exact ⟨sub_nonneg.mpr hcover, ihs, ihd⟩
    | deliver q l₁ l₂ hpipe hq => exact ⟨add_nonneg ihh (hq rfl), ihs, ihd⟩

/-- A zero-demand period at a facility with nonnegative stock leaves the
lost-sales facility state unchanged. -/
theorem lserve_zero_fixed (s : LNode) (h0 : 0 ≤ s.on_hand_inventory) :
    serve_customer s 0 = s := by
  cases s with
  | mk oh ip rop bstk td ts pl =>
    simp only [LNode.on_hand_inventory] at h0
    simp [serve_customer, min_eq_left h0]

/-- The source facility's counters stay identically zero over any number of
demand periods. -/
theorem iterate_source_demand_fixed_lostsales (s : LNode) (h0 : 0 ≤ s.on_hand_inventory)
    (n : ℕ) : iterate_source_demand s n = s := by
  induction n with
  | zero => rfl
  | succ n ih => rw [iterate_source_demand, ih, lserve_zero_fixed s h0]

end SimLostSales

/-- C7 (amended): at the end of a replication, for both variants,
`0 ≤ serviceLevel ≤ 1` (hence `≤ 1 + ε`) and the epsilon-guarded division is
well defined, provided the run's sampled demands and delivered replenishment
quantities are nonnegative; without the delivered-quantity proviso (which
the claim omits), negative replenishment orders can drive the shipment and
late-sales counters outside `[0, totalDemand]` and the service level below
0 — see the counterexample. -/
theorem C7_service_level_bounds
    (binit bs : SimBackorder.BNode) (linit ls : SimLostSales.LNode)
    (hb0 : 0 ≤ binit.on_hand_inventory) (hb1 : binit.totalBackOrder = 0)
    (hb2 : binit.totalLateSales = 0) (hb3 : binit.totalDemand = 0)
    (hbr : SimBackorder.BReachPos binit bs)
    (hl0 : 0 ≤ linit.on_hand_inventory) (hl1 : linit.totalShipped = 0)
    (hl2 : linit.totalDemand = 0)
    (hlr : SimLostSales.LReachPos linit ls) :
    (0 ≤ SimBackorder.serviceLevel bs.totalLateSales bs.totalDemand
      ∧ SimBackorder.serviceLevel bs.totalLateSales bs.totalDemand ≤ 1)
    ∧ (0 ≤ SimLostSales.serviceLevel ls.totalShipped ls.totalDemand
      ∧ SimLostSales.serviceLevel ls.totalShipped ls.totalDemand ≤ 1) := by
  obtain ⟨bhh, bhb, bhl, bhd⟩ :=
    SimBackorder.bgood_invariant binit bs hb0 hb1 hb2 hb3 hbr
  obtain ⟨lhh, lhs, lhd⟩ := SimLostSales.lgood_invariant linit ls hl0 hl1 hl2 hlr
  have bd0 : 0 ≤ bs.totalDemand := le_trans bhl bhd
  have ld0 : 0 ≤ ls.totalDemand := le_trans lhs lhd
  refine ⟨⟨?_, ?_⟩, ?_, ?_⟩
  · rw [SimBackorder.serviceLevel, sub_nonneg, div_le_one (by linarith)]
    linarith
  · rw [SimBackorder.serviceLevel]
    have : 0 ≤ bs.totalLateSales / (bs.totalDemand + 1/100000) :=
      div_nonneg bhl (by linarith)
    linarith
  · rw [SimLostSales.serviceLevel]
    exact div_nonneg lhs (by linarith)
  · rw [SimLostSales.serviceLevel, div_le_one (by linarith)]
    linarith

/-- Witness for C7 at concrete fresh facilities. -/
theorem C7_service_level_bounds_witness :
    (0 ≤ SimBackorder.serviceLevel
        (SimBackorder.initBNode 90 20 100).totalLateSales
        (SimBackorder.initBNode 90 20 100).totalDemand
      ∧ SimBackorder.serviceLevel
          (SimBackorder.initBNode 90 20 100).totalLateSales
          (SimBackorder.initBNode 90 20 100).totalDemand ≤ 1)
    ∧ (0 ≤ SimLostSales.serviceLevel
          (SimLostSales.initLNode 90 20 100).totalShipped
          (SimLostSales.initLNode 90 20 100).totalDemand
      ∧ SimLostSales.serviceLevel
          (SimLostSales.initLNode 90 20 100).totalShipped
          (SimLostSales.initLNode 90 20 100).totalDemand ≤ 1) :=
  C7_service_level_bounds
    (SimBackorder.initBNode 90 20 100) (SimBackorder.initBNode 90 20 100)
    (SimLostSales.initLNode 90 20 100) (SimLostSales.initLNode 90 20 100)
    (by norm_num [SimBackorder.initBNode]) rfl rfl rfl
    Relation.ReflTransGen.refl
    (by norm_num [SimLostSales.initLNode]) rfl rfl
    Relation.ReflTransGen.refl

/-- C7 counterexample: with nonnegative (all-zero) demand-history values and
the configuration `initial_inv = 150`, `ROP = 200`, `baseStock = 0`, the
lost-sales run reaches a state whose end-of-replication service level
`totalShipped / (totalDemand + 1.0e-5) = -150 / (1/100000) = -15000000` is
far below 0: the two placed `-150` orders are delivered as negative
increments, a later zero-demand period ships `min(0, -150) = -150`, and
`totalShipped` (which never increases afterwards, every later shipment
being `min(0, on_hand) ≤ 0`) is negative at the horizon. -/
theorem C7_counterexample :
    SimLostSales.LReach (SimLostSales.initLNode 150 200 0) SimLostSales.c7e
    ∧ SimLostSales.serviceLevel SimLostSales.c7e.totalShipped
        SimLostSales.c7e.totalDemand < 0 := by
  constructor
  · have e1 : SimLostSales.check_inventory (SimLostSales.initLNode 150 200 0)
        = SimLostSales.c7a := by
      simp [SimLostSales.check_inventory, SimLostSales.initLNode, SimLostSales.c7a]
    have h1 : SimLostSales.LStep false (SimLostSales.initLNode 150 200 0)
        SimLostSales.c7a :=
      e1 ▸ SimLostSales.LStep.check _ (by norm_num [SimLostSales.initLNode])
    have e2 : SimLostSales.check_inventory SimLostSales.c7a = SimLostSales.c7b := by
      simp [SimLostSales.check_inventory, SimLostSales.c7a, SimLostSales.c7b]
    have h2 : SimLostSales.LStep false SimLostSales.c7a SimLostSales.c7b :=
      e2 ▸ SimLostSales.LStep.check _ (by norm_num [SimLostSales.c7a])
    have e3 : ({ SimLostSales.c7b with
        on_hand_inventory := SimLostSales.c7b.on_hand_inventory + (-150)
        pipeline := ([] : List ℚ) ++ [-150] } : SimLostSales.LNode)
        = SimLostSales.c7c := by
      simp [SimLostSales.c7b, SimLostSales.c7c]
    have h3 : SimLostSales.LStep false SimLostSales.c7b SimLostSales.c7c :=
      e3 ▸ SimLostSales.LStep.deliver SimLostSales.c7b (-150) [] [-150] rfl
        (fun h => by cases h)
    have e4 : ({ SimLostSales.c7c with
        on_hand_inventory := SimLostSales.c7c.on_hand_inventory + (-150)
        pipeline := ([] : List ℚ) ++ [] } : SimLostSales.LNode)
        = SimLostSales.c7d := by
      simp [SimLostSales.c7c, SimLostSales.c7d]
    have h4 : SimLostSales.LStep false SimLostSales.c7c SimLostSales.c7d :=
      e4 ▸ SimLostSales.LStep.deliver SimLostSales.c7c (-150) [] [] rfl
        (fun h => by cases h)
    have e5 : SimLostSales.serve_customer SimLostSales.c7d 0 = SimLostSales.c7e := by
      simp [SimLostSales.serve_customer, SimLostSales.c7d, SimLostSales.c7e]
    have h5 : SimLostSales.LStep false SimLostSales.c7d SimLostSales.c7e :=
      e5 ▸ SimLostSales.LStep.serve SimLostSales.c7d 0 (fun _ => le_refl 0)
    exact Relation.ReflTransGen.head h1 (Relation.ReflTransGen.head h2
      (Relation.ReflTransGen.head h3 (Relation.ReflTransGen.head h4
        (Relation.ReflTransGen.single h5))))
  · rw [SimLostSales.serviceLevel]
    norm_num [SimLostSales.c7e]

/-- C9 (amended): node 0's `avgOnHand` is exactly 0 (the post-run loop
special-cases `i == 0`), but node 0's `serviceLevel` is produced by the very
same policy formula as every other node's, applied to the source's tracked
counters — which stay identically zero because its demand series is the
all-zero placeholder — yielding 1 in the backorder variant and 0 in the
lost-sales variant, not one fixed conventional value. -/
theorem C9_source_metrics (inv rop bstk : ℚ) (h0 : 0 ≤ inv) (n m k : ℕ)
    (series : List (List ℚ)) (hk : series.length = k + 1) :
    (Orchestration.avgOnHand_results series).head? = some 0
    ∧ SimBackorder.serviceLevel
        (SimBackorder.iterate_source_demand
          (SimBackorder.initBNode inv rop bstk) n).totalLateSales
        (SimBackorder.iterate_source_demand
          (SimBackorder.initBNode inv rop bstk) n).totalDemand = 1
    ∧ SimLostSales.serviceLevel
        (SimLostSales.iterate_source_demand
          (SimLostSales.initLNode inv rop bstk) m).totalShipped
        (SimLostSales.iterate_source_demand
          (SimLostSales.initLNode inv rop bstk) m).totalDemand = 0 := by
  refine ⟨?_, ?_, ?_⟩
  · rw [Orchestration.avgOnHand_results, hk, List.range_succ_eq_map]
    simp
  · rw [SimBackorder.iterate_source_demand_fixed_backorder _ h0 rfl]
    rw [SimBackorder.serviceLevel]
    norm_num [SimBackorder.initBNode]
  · rw [SimLostSales.iterate_source_demand_fixed_lostsales _ h0]
    rw [SimLostSales.serviceLevel]
    norm_num [SimLostSales.initLNode]

/-- Witness for C9 at concrete inputs. -/
theorem C9_source_metrics_witness :
    (Orchestration.avgOnHand_results [[1], [2]]).head? = some 0
    ∧ SimBackorder.serviceLevel
        (SimBackorder.iterate_source_demand
          (SimBackorder.initBNode 5 1 9) 3).totalLateSales
        (SimBackorder.iterate_source_demand
          (SimBackorder.initBNode 5 1 9) 3).totalDemand = 1
    ∧ SimLostSales.serviceLevel
        (SimLostSales.iterate_source_demand
          (SimLostSales.initLNode 5 1 9) 2).totalShipped
        (SimLostSales.iterate_source_demand
          (SimLostSales.initLNode 5 1 9) 2).totalDemand = 0 :=
  C9_source_metrics 5 1 9 (by norm_num) 3 2 1 [[1], [2]] rfl

/-- C9 counterexample: node 0's service level is not a fixed conventional
value excluded from the policy computation — the post-run loops apply the
policy formula to node 0's counters exactly as to any other node's, and on
the source's all-zero counters the formula yields 0 in the lost-sales
variant (not the conventional 100% level) and 1 in the backorder variant,
so the two variants do not even agree on the source's service level. -/
theorem C9_counterexample :
    Orchestration.serviceLevel_results_lostsales [(0, 0), (80, 100)]
      = [SimLostSales.serviceLevel 0 0, SimLostSales.serviceLevel 80 100]
    ∧ SimLostSales.serviceLevel 0 0 = 0
    ∧ Orchestration.serviceLevel_results_backorder [(0, 0), (30, 100)]
      = [SimBackorder.serviceLevel 0 0, SimBackorder.serviceLevel 30 100]
    ∧ SimBackorder.serviceLevel 0 0 = 1
    ∧ (0 : ℚ) ≠ 1 := by
  refine ⟨rfl, ?_, rfl, ?_, by norm_num⟩
  · rw [SimLostSales.serviceLevel]
    norm_num
  · rw [SimBackorder.serviceLevel]
    norm_num

/-- C8: determinism of a replication.  For a fixed seed and identical input
parameters, two calls of `simulate_network` — whatever the ambient global
generator state was when each call started — produce identical per-node
service levels and average on-hand inventories and an identical log of
order placement times and quantities, in both variants: the run reseeds the
generator from `seedinit` alone and the engine is a deterministic function
of the seeded state and the parameters. -/
theorem C8_determinism (g1 g2 seedinit : ℕ) (p : Engine.Params) :
    Engine.simulate_network true g1 seedinit p
        = Engine.simulate_network true g2 seedinit p
    ∧ Engine.simulate_network false g1 seedinit p
        = Engine.simulate_network false g2 seedinit p :=
  ⟨rfl, rfl⟩
